import Mathlib

/-!
Verification of the eligibility evaluator in `src/python/main.py`.

The Python program decides eligibility for a time-bounded service based on a
person's age at the start and end of a fixed service period
(`START_DATE = 2564-06-01`, `END_DATE = 2564-08-31`, Buddhist-era years), and
computes the applicable sub-window.

Embedding conventions:
* A Python `datetime` date is a `Date` record of integer year/month/day.
  Python's `datetime` constructor validates its arguments and raises
  `ValueError` on invalid dates; we model construction as `mkDatetime`,
  returning `Option Date` (`none` = exception).  `datetime` uses the
  proleptic Gregorian leap rule on the year number, which we reproduce.
* Python tuple comparison on `(years, months)` pairs is lexicographic;
  `ageLe` / `ageLt` spell this out.
* `Person.is_eligible` can raise inside the branches that build a new
  `datetime`; its embedding therefore returns
  `Option (Bool × Option Date × Option Date)`, where the outer `none`
  models an uncaught exception and the inner options model Python `None`.
-/

/-- A calendar date, the components of a Python `datetime` (no time part). -/
structure Date where
  year : Int
  month : Int
  day : Int
deriving DecidableEq, Repr

/-- Proleptic Gregorian leap-year rule, as applied by Python `datetime`
to the (here Buddhist-era) year number. -/
def isLeap (y : Int) : Prop :=
  y % 4 = 0 ∧ (y % 100 ≠ 0 ∨ y % 400 = 0)

instance (y : Int) : Decidable (isLeap y) := by
  unfold isLeap; infer_instance

/-- Number of days of month `m` in year `y` (Python `calendar` rule, used by
`datetime` validation). -/
def daysInMonth (y m : Int) : Int :=
  if m = 2 then (if isLeap y then 29 else 28)
  else if m = 4 ∨ m = 6 ∨ m = 9 ∨ m = 11 then 30
  else 31

/-- The argument check performed by Python `datetime(year, month, day)`. -/
def validDate (d : Date) : Prop :=
  1 ≤ d.year ∧ d.year ≤ 9999 ∧ 1 ≤ d.month ∧ d.month ≤ 12 ∧
    1 ≤ d.day ∧ d.day ≤ daysInMonth d.year d.month

instance (d : Date) : Decidable (validDate d) := by
  unfold validDate; infer_instance

/-- Python `datetime(y, m, d)`: `some` on a valid date, `none` models the
`ValueError` raised on an invalid one. -/
def mkDatetime (y m d : Int) : Option Date :=
  if validDate ⟨y, m, d⟩ then some ⟨y, m, d⟩ else none

/-- Python `<=` on two-element tuples (lexicographic), used on
`(years, months)` age pairs. -/
def ageLe (a b : Int × Int) : Prop :=
  a.1 < b.1 ∨ (a.1 = b.1 ∧ a.2 ≤ b.2)

/-- Python `<` on two-element tuples (lexicographic). -/
def ageLt (a b : Int × Int) : Prop :=
  a.1 < b.1 ∨ (a.1 = b.1 ∧ a.2 < b.2)

instance (a b : Int × Int) : Decidable (ageLe a b) := by
  unfold ageLe; infer_instance

instance (a b : Int × Int) : Decidable (ageLt a b) := by
  unfold ageLt; infer_instance

/-- Python `datetime` `<=`: lexicographic on (year, month, day). -/
def dateLe (a b : Date) : Prop :=
  a.year < b.year ∨
    (a.year = b.year ∧
      (a.month < b.month ∨ (a.month = b.month ∧ a.day ≤ b.day)))

instance (a b : Date) : Decidable (dateLe a b) := by
  unfold dateLe; infer_instance

/-- Constant `START_DATE = datetime(2564, 6, 1)` (main.py:7). -/
def START_DATE : Date := ⟨2564, 6, 1⟩

/-- Constant `END_DATE = datetime(2564, 8, 31)` (main.py:8). -/
def END_DATE : Date := ⟨2564, 8, 31⟩

/-- Constant `SENIOR_LOWER_AGE = (65, 0)` (main.py:9). -/
def SENIOR_LOWER_AGE : Int × Int := (65, 0)

/-- Constant `CHILD_LOWER_AGE = (0, 6)` (main.py:10). -/
def CHILD_LOWER_AGE : Int × Int := (0, 6)

/-- Constant `CHILD_UPPER_AGE = (2, 0)` (main.py:11). -/
def CHILD_UPPER_AGE : Int × Int := (2, 0)

/-- The `Gender` enum (main.py:17-22); its string payload is presentation
only and irrelevant to eligibility. -/
inductive Gender
  | Male
  | Female
deriving DecidableEq, Repr

/-- The `Person` dataclass (main.py:25-28). -/
structure Person where
  gender : Gender
  birthdate : Date
deriving DecidableEq, Repr

/-- Method `Person.calculate_age` (main.py:36-48), with `self.birthdate` passed
explicitly: years since birth, decremented when `set_date` falls strictly
before that year's month/day anniversary, paired with the month-of-year
delta `((set_date.month - birthdate.month) + 12) % 12`. -/
def calculate_age (birthdate set_date : Date) : Int × Int :=
  let base := set_date.year - birthdate.year
  let age_years :=
    if set_date.month < birthdate.month ∨
        (set_date.month = birthdate.month ∧ set_date.day < birthdate.day) then
      base - 1
    else
      base
  let age_months := (set_date.month - birthdate.month + 12) % 12
  (age_years, age_months)

/-- Method `Person.is_eligible` (main.py:51-85): ordered decision list over
`calculate_age` at `START_DATE` and `END_DATE`.  The outer `Option` models
the `ValueError` Python would raise if a constructed `datetime` were
invalid; the inner options model the `None` dates of the ineligible case. -/
def is_eligible (p : Person) : Option (Bool × Option Date × Option Date) :=
  let age_at_start := calculate_age p.birthdate START_DATE
  let age_at_end := calculate_age p.birthdate END_DATE
  let dob := p.birthdate
  if ageLe SENIOR_LOWER_AGE age_at_start ∨
      (ageLe CHILD_LOWER_AGE age_at_start ∧ ageLe age_at_end CHILD_UPPER_AGE) then
    some (true, some START_DATE, some END_DATE)
  else if ageLe SENIOR_LOWER_AGE age_at_end then
    (mkDatetime (dob.year + 65) dob.month dob.day).map
      fun s => (true, some s, some END_DATE)
  else if ageLe CHILD_LOWER_AGE age_at_end ∧ ageLt age_at_end CHILD_UPPER_AGE then
    (mkDatetime dob.year (dob.month + 6) dob.day).map
      fun s => (true, some s, some END_DATE)
  else if ageLt CHILD_UPPER_AGE age_at_end ∧
      (ageLe CHILD_LOWER_AGE age_at_start ∧ ageLe age_at_start CHILD_UPPER_AGE) then
    (mkDatetime (dob.year + 2) dob.month dob.day).map
      fun e => (true, some START_DATE, some e)
  else
    some (false, none, none)

/-- The years/months formula of §4.1 of the design document, written from the
spec's words, to be compared with `calculate_age`. -/
def calculateAgeSpec (birthdate referenceDate : Date) : Int × Int :=
  ((referenceDate.year - birthdate.year) -
      (if referenceDate.month < birthdate.month ∨
          (referenceDate.month = birthdate.month ∧
            referenceDate.day < birthdate.day) then 1 else 0),
    ((referenceDate.month - birthdate.month) + 12) % 12)

/-- C10: for every date `d`, the age of a person born on `d` relative to `d`
itself is exactly `(0, 0)`. -/
theorem age_same_date_zero (d : Date) : calculate_age d d = (0, 0) := by
  simp only [calculate_age]
  norm_num

/-- C9: gender does not influence eligibility: two persons with the same
birthdate and arbitrary genders get identical `is_eligible` results. -/
theorem gender_irrelevant (g g' : Gender) (b : Date) :
    is_eligible ⟨g, b⟩ = is_eligible ⟨g', b⟩ := rfl

/-- C3: `calculate_age` computes exactly the §4.1 formula: years is the year
difference decremented before the month/day anniversary, months is always
`((refMonth - bdMonth) + 12) % 12`, independent of the years adjustment and
of both day-of-month fields. -/
theorem calculate_age_matches_spec_formula (birthdate referenceDate : Date) :
    calculate_age birthdate referenceDate = calculateAgeSpec birthdate referenceDate ∧
    (calculate_age birthdate referenceDate).2 =
      ((referenceDate.month - birthdate.month) + 12) % 12 ∧
    ∀ d d' : Int,
      (calculate_age ⟨birthdate.year, birthdate.month, d⟩
          ⟨referenceDate.year, referenceDate.month, d'⟩).2 =
        (calculate_age birthdate referenceDate).2 := by
  refine ⟨?_, rfl, fun d d' => rfl⟩
  simp only [calculate_age, calculateAgeSpec]
  split_ifs <;> norm_num

/-- C5 (amended): the months component of `calculate_age` always lies in
`[0, 11]`, and the years component is non-negative whenever the reference
date is on or after the birthdate; for a reference date strictly before the
birthdate the years component can be negative. -/
theorem age_components_bounds (birthdate referenceDate : Date) :
    (dateLe birthdate referenceDate →
      0 ≤ (calculate_age birthdate referenceDate).1) ∧
    0 ≤ (calculate_age birthdate referenceDate).2 ∧
    (calculate_age birthdate referenceDate).2 ≤ 11 := by
  simp only [calculate_age, dateLe]
  refine ⟨fun hle => ?_, by omega, by omega⟩
  split_ifs <;> omega

/-- C5 (counterexample): for birthdate 2564-06-02 and reference date
`START_DATE` = 2564-06-01 (both valid dates), the years component is `-1`,
refuting "years ≥ 0 for every birthdate and every reference date". -/
theorem age_years_negative :
    validDate ⟨2564, 6, 2⟩ ∧ validDate START_DATE ∧
    (calculate_age ⟨2564, 6, 2⟩ START_DATE).1 = -1 := by decide

/-- C5 (witness): the bounds evaluated at birthdate 2499-03-10 and reference
date `START_DATE`. -/
theorem age_components_bounds_witness :
    0 ≤ (calculate_age ⟨2499, 3, 10⟩ START_DATE).1 ∧
    0 ≤ (calculate_age ⟨2499, 3, 10⟩ START_DATE).2 ∧
    (calculate_age ⟨2499, 3, 10⟩ START_DATE).2 ≤ 11 :=
  ⟨(age_components_bounds ⟨2499, 3, 10⟩ START_DATE).1 (by decide),
   (age_components_bounds ⟨2499, 3, 10⟩ START_DATE).2.1,
   (age_components_bounds ⟨2499, 3, 10⟩ START_DATE).2.2⟩

/-- C8: any person whose age at `START_DATE` is at least `SENIOR_LOWER_AGE`
(the comparison is `<=`, so age exactly (65, 0) is included) is eligible
with the full-period window. -/
theorem rule_a_senior_full_period (p : Person)
    (hs : ageLe SENIOR_LOWER_AGE (calculate_age p.birthdate START_DATE)) :
    is_eligible p = some (true, some START_DATE, some END_DATE) := by
  simp only [is_eligible]
  rw [if_pos (Or.inl hs)]

/-- C8 (witness): a person born 2499-06-01 turns exactly 65 on `START_DATE`
(age (65, 0) there) and gets the full-period window. -/
theorem rule_a_senior_full_period_witness :
    calculate_age ⟨2499, 6, 1⟩ START_DATE = (65, 0) ∧
    is_eligible ⟨Gender.Female, ⟨2499, 6, 1⟩⟩ =
      some (true, some START_DATE, some END_DATE) :=
  ⟨by decide, rule_a_senior_full_period ⟨Gender.Female, ⟨2499, 6, 1⟩⟩ (by decide)⟩

/-- C2 (counterexample): born 2562-08-15, the age at `END_DATE` is exactly
`CHILD_UPPER_AGE` = (2, 0) and the age at `START_DATE` is inside the child
bracket, yet `is_eligible` returns the full-period window of Rule A, not
Rule D's window `[START_DATE, birthdate + 2 years]` = [2564-06-01, 2564-08-15]. -/
theorem exact_child_upper_at_end_not_rule_d :
    validDate ⟨2562, 8, 15⟩ ∧
    calculate_age ⟨2562, 8, 15⟩ END_DATE = CHILD_UPPER_AGE ∧
    ageLe CHILD_LOWER_AGE (calculate_age ⟨2562, 8, 15⟩ START_DATE) ∧
    ageLe (calculate_age ⟨2562, 8, 15⟩ START_DATE) CHILD_UPPER_AGE ∧
    is_eligible ⟨Gender.Male, ⟨2562, 8, 15⟩⟩ =
      some (true, some START_DATE, some END_DATE) ∧
    is_eligible ⟨Gender.Male, ⟨2562, 8, 15⟩⟩ ≠
      some (true, some START_DATE, some ⟨2562 + 2, 8, 15⟩) := by decide

/-- C2 (amended): a person whose age at `END_DATE` is exactly
`CHILD_UPPER_AGE` = (2, 0) and whose age at `START_DATE` is within the child
bracket is decided by Rule A (upper check `<=` is inclusive), receiving the
full-period window; Rule D requires age at `END_DATE` strictly above (2, 0). -/
theorem exact_child_upper_at_end_rule_a (p : Person)
    (he : calculate_age p.birthdate END_DATE = CHILD_UPPER_AGE)
    (hl : ageLe CHILD_LOWER_AGE (calculate_age p.birthdate START_DATE)) :
    is_eligible p = some (true, some START_DATE, some END_DATE) := by
  simp only [is_eligible]
  rw [if_pos (Or.inr ⟨hl, by rw [he]; decide⟩)]

/-- C2 (witness): the amended rule evaluated at birthdate 2562-08-20. -/
theorem exact_child_upper_at_end_rule_a_witness :
    is_eligible ⟨Gender.Male, ⟨2562, 8, 20⟩⟩ =
      some (true, some START_DATE, some END_DATE) :=
  exact_child_upper_at_end_rule_a ⟨Gender.Male, ⟨2562, 8, 20⟩⟩
    (by decide) (by decide)

/-- Reachability of the Rule B branch: if the senior check fails at
`START_DATE` but holds at `END_DATE`, the birthdate is 2499-06/07/08. -/
lemma ruleB_reach (y m d : Int) (hv : validDate ⟨y, m, d⟩)
    (hA : ¬ ageLe SENIOR_LOWER_AGE (calculate_age ⟨y, m, d⟩ START_DATE))
    (hB : ageLe SENIOR_LOWER_AGE (calculate_age ⟨y, m, d⟩ END_DATE)) :
    y = 2499 ∧ (m = 6 ∨ m = 7 ∨ m = 8) := by
  simp only [validDate, daysInMonth, isLeap, ageLe, calculate_age,
    START_DATE, END_DATE, SENIOR_LOWER_AGE] at hv hA hB
  split_ifs at hv hA hB <;> omega

/-- Reachability of the Rule C branch: with Rule A refused and the child
window check holding at `END_DATE`, the birthdate is 2564-01, 2564-02, or
2563-06 with day at least 2. -/
lemma ruleC_reach (y m d : Int) (hv : validDate ⟨y, m, d⟩)
    (hA : ¬ (ageLe SENIOR_LOWER_AGE (calculate_age ⟨y, m, d⟩ START_DATE) ∨
      (ageLe CHILD_LOWER_AGE (calculate_age ⟨y, m, d⟩ START_DATE) ∧
        ageLe (calculate_age ⟨y, m, d⟩ END_DATE) CHILD_UPPER_AGE)))
    (hC : ageLe CHILD_LOWER_AGE (calculate_age ⟨y, m, d⟩ END_DATE) ∧
      ageLt (calculate_age ⟨y, m, d⟩ END_DATE) CHILD_UPPER_AGE) :
    (y = 2564 ∧ (m = 1 ∨ m = 2)) ∨ (y = 2563 ∧ m = 6 ∧ 2 ≤ d) := by
  simp only [validDate, daysInMonth, isLeap, ageLe, ageLt, calculate_age,
    START_DATE, END_DATE, CHILD_LOWER_AGE, CHILD_UPPER_AGE,
    SENIOR_LOWER_AGE] at hv hA hC
  split_ifs at hv hA hC <;> omega

/-- Reachability of the Rule D branch: with Rule A refused, the age at
`END_DATE` above the child bracket and the age at `START_DATE` inside it,
the birthdate is 2561-06 (day at least 2), 2562-06, or 2562-07. -/
lemma ruleD_reach (y m d : Int) (hv : validDate ⟨y, m, d⟩)
    (hA : ¬ (ageLe SENIOR_LOWER_AGE (calculate_age ⟨y, m, d⟩ START_DATE) ∨
      (ageLe CHILD_LOWER_AGE (calculate_age ⟨y, m, d⟩ START_DATE) ∧
        ageLe (calculate_age ⟨y, m, d⟩ END_DATE) CHILD_UPPER_AGE)))
    (hD : ageLt CHILD_UPPER_AGE (calculate_age ⟨y, m, d⟩ END_DATE) ∧
      (ageLe CHILD_LOWER_AGE (calculate_age ⟨y, m, d⟩ START_DATE) ∧
        ageLe (calculate_age ⟨y, m, d⟩ START_DATE) CHILD_UPPER_AGE)) :
    (m = 6 ∧ (y = 2561 ∨ y = 2562)) ∨ (m = 7 ∧ y = 2562) := by
  simp only [validDate, daysInMonth, isLeap, ageLe, ageLt, calculate_age,
    START_DATE, END_DATE, CHILD_LOWER_AGE, CHILD_UPPER_AGE,
    SENIOR_LOWER_AGE] at hv hA hD
  split_ifs at hv hA hD <;> omega

/-- Validity of the date built by the Rule B branch. -/
lemma ruleB_target_valid (y m d : Int) (hv : validDate ⟨y, m, d⟩)
    (hy : y = 2499) (hm : m = 6 ∨ m = 7 ∨ m = 8) :
    validDate ⟨y + 65, m, d⟩ := by
  subst hy
  rcases hm with rfl | rfl | rfl <;>
    simp only [validDate, daysInMonth, isLeap] at hv ⊢ <;>
    norm_num at hv ⊢ <;> omega

/-- Validity of the date built by the Rule C branch. -/
lemma ruleC_target_valid (y m d : Int) (hv : validDate ⟨y, m, d⟩)
    (hr : (y = 2564 ∧ (m = 1 ∨ m = 2)) ∨ (y = 2563 ∧ m = 6 ∧ 2 ≤ d)) :
    validDate ⟨y, m + 6, d⟩ := by
  rcases hr with ⟨rfl, rfl | rfl⟩ | ⟨rfl, rfl, hd⟩ <;>
    simp only [validDate, daysInMonth, isLeap] at hv ⊢ <;>
    norm_num at hv ⊢ <;> omega

/-- Validity of the date built by the Rule D branch. -/
lemma ruleD_target_valid (y m d : Int) (hv : validDate ⟨y, m, d⟩)
    (hr : (m = 6 ∧ (y = 2561 ∨ y = 2562)) ∨ (m = 7 ∧ y = 2562)) :
    validDate ⟨y + 2, m, d⟩ := by
  rcases hr with ⟨rfl, rfl | rfl⟩ | ⟨rfl, rfl⟩ <;>
    simp only [validDate, daysInMonth, isLeap] at hv ⊢ <;>
    norm_num at hv ⊢ <;> omega

/-- C6: a person below `SENIOR_LOWER_AGE` at `START_DATE` but at or above it
at `END_DATE` is eligible from the day they turn 65 — the date with the
birthdate's month and day and year `birthdate.year + 65` — to `END_DATE`. -/
theorem rule_b_window (p : Person) (hv : validDate p.birthdate)
    (hs : ageLt (calculate_age p.birthdate START_DATE) SENIOR_LOWER_AGE)
    (he : ageLe SENIOR_LOWER_AGE (calculate_age p.birthdate END_DATE)) :
    is_eligible p = some (true,
      some ⟨p.birthdate.year + 65, p.birthdate.month, p.birthdate.day⟩,
      some END_DATE) := by
  obtain ⟨g, y, m, d⟩ := p
  have hns : ¬ ageLe SENIOR_LOWER_AGE (calculate_age ⟨y, m, d⟩ START_DATE) := by
    simp only [ageLe, ageLt, SENIOR_LOWER_AGE] at hs ⊢
    omega
  have hA : ¬ (ageLe SENIOR_LOWER_AGE (calculate_age ⟨y, m, d⟩ START_DATE) ∨
      (ageLe CHILD_LOWER_AGE (calculate_age ⟨y, m, d⟩ START_DATE) ∧
        ageLe (calculate_age ⟨y, m, d⟩ END_DATE) CHILD_UPPER_AGE)) := by
    rintro (h | ⟨h1, h2⟩)
    · exact hns h
    · simp only [ageLe, SENIOR_LOWER_AGE, CHILD_UPPER_AGE] at he h2
      omega
  obtain ⟨hy, hm⟩ := ruleB_reach y m d hv hns he
  have hval : validDate ⟨y + 65, m, d⟩ := ruleB_target_valid y m d hv hy hm
  simp only [is_eligible]
  rw [if_neg hA, if_pos he]
  simp only [mkDatetime]
  rw [if_pos hval]
  rfl

/-- C6 (witness): born 2499-07-15, the person is (64, 11) at `START_DATE`
and (65, 1) at `END_DATE`, and is eligible from 2564-07-15 to `END_DATE`. -/
theorem rule_b_window_witness :
    is_eligible ⟨Gender.Female, ⟨2499, 7, 15⟩⟩ =
      some (true, some ⟨2564, 7, 15⟩, some END_DATE) :=
  rule_b_window ⟨Gender.Female, ⟨2499, 7, 15⟩⟩ (by decide) (by decide) (by decide)

/-- C7: a person not matching Rule A whose age at `END_DATE` is inside
`[CHILD_LOWER_AGE, CHILD_UPPER_AGE)` is eligible from the day they turn six
months old — the birthdate with 6 added to its month — to `END_DATE`.
(Rule B cannot match under these hypotheses.) -/
theorem rule_c_window (p : Person) (hv : validDate p.birthdate)
    (hA : ¬ (ageLe SENIOR_LOWER_AGE (calculate_age p.birthdate START_DATE) ∨
      (ageLe CHILD_LOWER_AGE (calculate_age p.birthdate START_DATE) ∧
        ageLe (calculate_age p.birthdate END_DATE) CHILD_UPPER_AGE)))
    (hl : ageLe CHILD_LOWER_AGE (calculate_age p.birthdate END_DATE))
    (hu : ageLt (calculate_age p.birthdate END_DATE) CHILD_UPPER_AGE) :
    is_eligible p = some (true,
      some ⟨p.birthdate.year, p.birthdate.month + 6, p.birthdate.day⟩,
      some END_DATE) := by
  obtain ⟨g, y, m, d⟩ := p
  have hnB : ¬ ageLe SENIOR_LOWER_AGE (calculate_age ⟨y, m, d⟩ END_DATE) := by
    simp only [ageLe, ageLt, SENIOR_LOWER_AGE, CHILD_UPPER_AGE] at hu ⊢
    omega
  have hreach := ruleC_reach y m d hv hA ⟨hl, hu⟩
  have hval : validDate ⟨y, m + 6, d⟩ := ruleC_target_valid y m d hv hreach
  simp only [is_eligible]
  rw [if_neg hA, if_neg hnB, if_pos ⟨hl, hu⟩]
  simp only [mkDatetime]
  rw [if_pos hval]
  rfl

/-- C7 (witness): the spec's concrete scenario: born 2564-01-10, the ages
are (0, 5) at `START_DATE` and (0, 7) at `END_DATE`, and the window starts
at birthdate + 6 months = 2564-07-10. -/
theorem rule_c_window_witness :
    calculate_age ⟨2564, 1, 10⟩ START_DATE = (0, 5) ∧
    calculate_age ⟨2564, 1, 10⟩ END_DATE = (0, 7) ∧
    is_eligible ⟨Gender.Female, ⟨2564, 1, 10⟩⟩ =
      some (true, some ⟨2564, 7, 10⟩, some END_DATE) :=
  ⟨by decide, by decide,
    rule_c_window ⟨Gender.Female, ⟨2564, 1, 10⟩⟩
      (by decide) (by decide) (by decide) (by decide)⟩

/-- C4: `is_eligible` never raises on a valid birthdate: every date the
reachable branches construct is a valid calendar date, so the result is
always `some`. -/
theorem is_eligible_total (p : Person) (hv : validDate p.birthdate) :
    (is_eligible p).isSome = true := by
  obtain ⟨g, y, m, d⟩ := p
  simp only [is_eligible]
  by_cases hA : ageLe SENIOR_LOWER_AGE (calculate_age ⟨y, m, d⟩ START_DATE) ∨
      (ageLe CHILD_LOWER_AGE (calculate_age ⟨y, m, d⟩ START_DATE) ∧
        ageLe (calculate_age ⟨y, m, d⟩ END_DATE) CHILD_UPPER_AGE)
  · rw [if_pos hA]; rfl
  rw [if_neg hA]
  by_cases hB : ageLe SENIOR_LOWER_AGE (calculate_age ⟨y, m, d⟩ END_DATE)
  · rw [if_pos hB]
    have hns : ¬ ageLe SENIOR_LOWER_AGE (calculate_age ⟨y, m, d⟩ START_DATE) :=
      fun h => hA (Or.inl h)
    obtain ⟨hy, hm⟩ := ruleB_reach y m d hv hns hB
    simp only [mkDatetime]
    rw [if_pos (ruleB_target_valid y m d hv hy hm)]
    rfl
  rw [if_neg hB]
  by_cases hC : ageLe CHILD_LOWER_AGE (calculate_age ⟨y, m, d⟩ END_DATE) ∧
      ageLt (calculate_age ⟨y, m, d⟩ END_DATE) CHILD_UPPER_AGE
  · rw [if_pos hC]
    simp only [mkDatetime]
    rw [if_pos (ruleC_target_valid y m d hv (ruleC_reach y m d hv hA hC))]
    rfl
  rw [if_neg hC]
  by_cases hD : ageLt CHILD_UPPER_AGE (calculate_age ⟨y, m, d⟩ END_DATE) ∧
      (ageLe CHILD_LOWER_AGE (calculate_age ⟨y, m, d⟩ START_DATE) ∧
        ageLe (calculate_age ⟨y, m, d⟩ START_DATE) CHILD_UPPER_AGE)
  · rw [if_pos hD]
    simp only [mkDatetime]
    rw [if_pos (ruleD_target_valid y m d hv (ruleD_reach y m d hv hA hD))]
    rfl
  rw [if_neg hD]
  rfl

/-- C4 (witness): totality evaluated at the Rule D borderline birthdate
2561-06-15. -/
theorem is_eligible_total_witness :
    (is_eligible ⟨Gender.Male, ⟨2561, 6, 15⟩⟩).isSome = true :=
  is_eligible_total ⟨Gender.Male, ⟨2561, 6, 15⟩⟩ (by decide)

/-- C1 (counterexample): for the valid birthdate 2561-06-15 the code takes
Rule D and returns `true` with window [2564-06-01, 2563-06-15]: the window
start exceeds the window end (which also lies outside the service period),
refuting the claimed `EligibilityResult` invariant. -/
theorem result_invariant_fails :
    validDate ⟨2561, 6, 15⟩ ∧
    is_eligible ⟨Gender.Female, ⟨2561, 6, 15⟩⟩ =
      some (true, some START_DATE, some ⟨2563, 6, 15⟩) ∧
    ¬ dateLe START_DATE ⟨2563, 6, 15⟩ := by decide

/-- C1 (amended): for every person with a valid birthdate whose evaluation
returns a result, the result satisfies: if the verdict is `false` both dates
are `none`; if it is `true` both dates are present and each is at most
`END_DATE`.  (The stronger claimed invariant — windowStart ≤ windowEnd and
the window contained in the service period — fails, see the counterexample.) -/
theorem result_invariant_holds (p : Person) (hv : validDate p.birthdate)
    (r : Bool × Option Date × Option Date) (hr : is_eligible p = some r) :
    (r.1 = false → r.2.1 = none ∧ r.2.2 = none) ∧
    (r.1 = true → ∃ s e, r.2.1 = some s ∧ r.2.2 = some e ∧
      dateLe s END_DATE ∧ dateLe e END_DATE) := by
  obtain ⟨g, y, m, d⟩ := p
  simp only [is_eligible] at hr
  by_cases hA : ageLe SENIOR_LOWER_AGE (calculate_age ⟨y, m, d⟩ START_DATE) ∨
      (ageLe CHILD_LOWER_AGE (calculate_age ⟨y, m, d⟩ START_DATE) ∧
        ageLe (calculate_age ⟨y, m, d⟩ END_DATE) CHILD_UPPER_AGE)
  · rw [if_pos hA] at hr
    injection hr with h
    subst h
    exact ⟨fun hf => absurd hf (by decide),
      fun _ => ⟨START_DATE, END_DATE, rfl, rfl, by decide, by decide⟩⟩
  rw [if_neg hA] at hr
  by_cases hB : ageLe SENIOR_LOWER_AGE (calculate_age ⟨y, m, d⟩ END_DATE)
  · rw [if_pos hB] at hr
    have hns : ¬ ageLe SENIOR_LOWER_AGE (calculate_age ⟨y, m, d⟩ START_DATE) :=
      fun h => hA (Or.inl h)
    obtain ⟨hy, hm⟩ := ruleB_reach y m d hv hns hB
    simp only [mkDatetime] at hr
    rw [if_pos (ruleB_target_valid y m d hv hy hm)] at hr
    injection hr with h
    subst h
    refine ⟨fun hf => by simp at hf,
      fun _ => ⟨⟨y + 65, m, d⟩, END_DATE, rfl, rfl, ?_, by decide⟩⟩
    subst hy
    rcases hm with rfl | rfl | rfl <;>
      simp only [validDate, daysInMonth, isLeap, dateLe, END_DATE] at hv ⊢ <;>
      norm_num at hv ⊢ <;> omega
  rw [if_neg hB] at hr
  by_cases hC : ageLe CHILD_LOWER_AGE (calculate_age ⟨y, m, d⟩ END_DATE) ∧
      ageLt (calculate_age ⟨y, m, d⟩ END_DATE) CHILD_UPPER_AGE
  · rw [if_pos hC] at hr
    have hreach := ruleC_reach y m d hv hA hC
    simp only [mkDatetime] at hr
    rw [if_pos (ruleC_target_valid y m d hv hreach)] at hr
    injection hr with h
    subst h
    refine ⟨fun hf => by simp at hf,
      fun _ => ⟨⟨y, m + 6, d⟩, END_DATE, rfl, rfl, ?_, by decide⟩⟩
    rcases hreach with ⟨rfl, rfl | rfl⟩ | ⟨rfl, rfl, hd⟩ <;>
      simp only [validDate, daysInMonth, isLeap, dateLe, END_DATE] at hv ⊢ <;>
      norm_num at hv ⊢ <;> omega
  rw [if_neg hC] at hr
  by_cases hD : ageLt CHILD_UPPER_AGE (calculate_age ⟨y, m, d⟩ END_DATE) ∧
      (ageLe CHILD_LOWER_AGE (calculate_age ⟨y, m, d⟩ START_DATE) ∧
        ageLe (calculate_age ⟨y, m, d⟩ START_DATE) CHILD_UPPER_AGE)
  · rw [if_pos hD] at hr
    have hreach := ruleD_reach y m d hv hA hD
    simp only [mkDatetime] at hr
    rw [if_pos (ruleD_target_valid y m d hv hreach)] at hr
    injection hr with h
    subst h
    refine ⟨fun hf => by simp at hf,
      fun _ => ⟨START_DATE, ⟨y + 2, m, d⟩, rfl, rfl, by decide, ?_⟩⟩
    rcases hreach with ⟨rfl, rfl | rfl⟩ | ⟨rfl, rfl⟩ <;>
      simp only [validDate, daysInMonth, isLeap, dateLe, END_DATE] at hv ⊢ <;>
      norm_num at hv ⊢
  rw [if_neg hD] at hr
  injection hr with h
  subst h
  exact ⟨fun _ => ⟨rfl, rfl⟩, fun ht => absurd ht (by decide)⟩

/-- C1 (witness): the amended invariant evaluated on the Rule C anomaly
birthdate 2563-06-15, whose window start 2563-12-15 precedes the service
period but not `END_DATE`. -/
theorem result_invariant_holds_witness :
    ((true, some (⟨2563, 12, 15⟩ : Date), some END_DATE).1 = false →
      (true, some (⟨2563, 12, 15⟩ : Date), some END_DATE).2.1 = none ∧
      (true, some (⟨2563, 12, 15⟩ : Date), some END_DATE).2.2 = none) ∧
    ((true, some (⟨2563, 12, 15⟩ : Date), some END_DATE).1 = true →
      ∃ s e, (true, some (⟨2563, 12, 15⟩ : Date), some END_DATE).2.1 = some s ∧
        (true, some (⟨2563, 12, 15⟩ : Date), some END_DATE).2.2 = some e ∧
        dateLe s END_DATE ∧ dateLe e END_DATE) :=
  result_invariant_holds ⟨Gender.Female, ⟨2563, 6, 15⟩⟩ (by decide)
    (true, some ⟨2563, 12, 15⟩, some END_DATE) (by decide)
